import Mathlib

/-!
A shallow embedding of the type-erasure mechanism of `impl/interface.hpp`.

The header generates, for each arity, a class with three members:
`void* _ptr` (owned buffer), `const interface_detail::thunk* _t`
(lifecycle descriptor, whose address doubles as a type token) and
`_vtable` (a tuple of function pointers, one trampoline per contract
method).  We embed the arity-1 class (`INTERFACE_1`) and, for the
narrowing-conversion property, the arity-2 class (`INTERFACE_2`).

Modelling choices:
* Concrete class types are drawn from a parameter type `κ`; a wrappable
  C++ type is either such a class type or a pointer to one (`TyDesc`).
* The heap behind stored pointers is a fixed map `Nat → V`; buffer
  addresses themselves are not modelled because no operation of the
  source compares them (`operator==` compares only stored pointer
  values, and copy/move transfer the payload wholesale).
* The buffer contents are a `Payload`: a value object or a stored
  pointer.  `reinterpret_cast` reads that cross the modes are undefined
  behaviour in the source and are given fixed junk results here; they
  are unreachable from well-formed states.
* Function pointers are modelled as Lean functions, a null function
  pointer as `none`; calls whose C++ counterpart is undefined behaviour
  (calling through an empty interface) return `none`.
* The lifecycle operations `copy`/`move` duplicate the buffer contents,
  so in `construct` they are modelled by reusing the source payload;
  their presence (null or not), which claim C9 is about, is recorded in
  the `thunk` record built by `thunk_storage`.
-/

namespace InterfaceSpec

/-- Codes for the C++ types a program may wrap or query with `target`:
either a concrete class type drawn from the parameter `κ`, or a pointer
to such a type.  (A trampoline can only ever be instantiated at a class
type or a pointer to a class type, since method-call syntax requires a
class pointee.) -/
inductive TyDesc (κ : Type) : Type where
  | base (c : κ)
  | ptrTo (c : κ)
deriving DecidableEq

/-- The type whose method a trampoline bound to `T` ultimately calls:
`T` itself for a class type, the pointee class for a pointer type. -/
def objType {κ : Type} : TyDesc κ → κ
  | TyDesc.base c => c
  | TyDesc.ptrTo c => c

/-- `interface_detail::thunk`: the lifecycle descriptor record.  The
source stores three function pointers (`copy`, `move`, `destroy`) and a
size; `destroy` is always populated, and the semantics of `copy`/`move`
(duplicating the buffer contents) is folded into `construct` below, so
the record keeps what the claims observe: whether `copy` and `move` are
null, and the recorded size. -/
structure thunk where
  hasCopy : Bool
  hasMove : Bool
  size : Nat
deriving DecidableEq

/-- `interface_detail::thunk_storage<T>::t`.  The source selects between
the primary template and the specialisation on the single condition
`std::is_constructible_v<T, const T&>`: the primary template populates
both `copy` and `move`, the specialisation nulls both.  The parameter
`copyConstructible` is that condition for the type `T` at hand. -/
def thunk_storage (copyConstructible : Bool) (size : Nat) : thunk :=
  if copyConstructible then ⟨true, true, size⟩ else ⟨false, false, size⟩

/-- The identity (address) of a lifecycle descriptor, used as a runtime
type token.  `interface_detail::get_thunk<T>` returns the address of
`thunk_storage<void*>::t` for every pointer type `T`, and the address of
`thunk_storage<T>::t` otherwise, so tokens are: one per concrete class
type, plus the single shared token of all pointer types. -/
inductive Token (κ : Type) : Type where
  | concrete (c : κ)
  | voidPtr
deriving DecidableEq

/-- `interface_detail::get_thunk<T>()`: the canonical descriptor token
of a type.  All pointer types collapse onto `Token.voidPtr`. -/
def get_thunk {κ : Type} : TyDesc κ → Token κ
  | TyDesc.base c => Token.concrete c
  | TyDesc.ptrTo _ => Token.voidPtr

/-- `interface_detail::is_pointer_thunk(t)`: `t == get_thunk<void*>()`.
The argument is the (possibly null) `_t` member of an interface; the
null pointer compares unequal to the valid `void*` descriptor address. -/
def is_pointer_thunk {κ : Type} [DecidableEq κ] (t : Option (Token κ)) : Bool :=
  decide (t = some Token.voidPtr)

/-- The contents of the single owned buffer behind an interface object:
either a value object of a wrapped class type, or a stored pointer
(reference mode).  Pointee addresses are modelled as naturals. -/
inductive Payload (V : Type) : Type where
  | val (v : V)
  | ptr (addr : Nat)
deriving DecidableEq

/-- Reading the buffer as a value object (`*static_cast<T*>(p)` inside
`interface_detail::as_object` for non-pointer `T`).  Reading a buffer
that holds a stored pointer as a value object is undefined behaviour in
the source; `default` stands for the unspecified result, and no
dispatch from a well-formed state performs it. -/
def as_value {V : Type} [Inhabited V] : Payload V → V
  | Payload.val v => v
  | Payload.ptr _ => default

/-- Reading the buffer as a stored pointer (the first dereference of
`**static_cast<T*>(p)` for pointer `T`, and the read done by
`*reinterpret_cast<void**>(_ptr)` in `operator==`).  Reading a value
object as a pointer is undefined behaviour in the source; `0` stands
for the unspecified bits, and no well-formed state exercises it. -/
def as_pointer {V : Type} : Payload V → Nat
  | Payload.ptr addr => addr
  | Payload.val _ => 0

/-- `interface_detail::as_object<T>(p)`: the object a trampoline bound
to `T` invokes the method on.  For a pointer type this dereferences one
extra level, through the heap. -/
def as_object {κ V : Type} [Inhabited V] (heap : Nat → V) : TyDesc κ → Payload V → V
  | TyDesc.base _, p => as_value p
  | TyDesc.ptrTo _, p => heap (as_pointer p)

/-- The trampoline `erasure_fn<SIG, METHOD_NAME0_0_factory<T>>::value`
for the contract method, bound to concrete type `T`: recover the object
from the opaque pointer with `as_object<T>` and call its own method
(the implementation of the wrapped type, `method (objType T)`) with the
forwarded argument. -/
def factory_call {κ V A R : Type} [Inhabited V] (method : κ → V → A → R) (heap : Nat → V)
    (T : TyDesc κ) (p : Payload V) (a : A) : R :=
  method (objType T) (as_object heap T p) a

/-- The class generated by `INTERFACE_1(SIG0, m0)`: members `_ptr`
(owned buffer, null when empty), `_t` (lifecycle descriptor pointer,
null when empty) and `_vtable` (one trampoline; a moved-from or
default-constructed object holds a null function pointer). -/
structure Interface1 (κ V A R : Type) where
  _ptr : Option (Payload V) := none
  _t : Option (Token κ) := none
  _vtable : Option (Payload V → A → R) := none

namespace Interface1

/-- The friend `get_m0(i, interface_tag)`: `get<0>(i._vtable)`. -/
def get_method0 {κ V A R : Type} (i : Interface1 κ V A R) : Option (Payload V → A → R) :=
  i._vtable

/-- The value-wrapping constructor at a non-pointer concrete type `c`:
allocate a buffer, construct a copy of `v` in it, record the type's
canonical descriptor, and populate the dispatch table with the
trampoline bound to `c`. -/
def fromValue {κ V A R : Type} [Inhabited V] (method : κ → V → A → R) (heap : Nat → V)
    (c : κ) (v : V) : Interface1 κ V A R :=
  ⟨some (Payload.val v), some (get_thunk (TyDesc.base c)),
    some (factory_call method heap (TyDesc.base c))⟩

/-- The value-wrapping constructor at a pointer type (pointee class
`c`): the buffer stores the pointer itself, the descriptor is the
canonical shared pointer descriptor, and the trampoline is bound to the
pointer type, dereferencing one extra level on every call. -/
def fromPointer {κ V A R : Type} [Inhabited V] (method : κ → V → A → R) (heap : Nat → V)
    (c : κ) (addr : Nat) : Interface1 κ V A R :=
  ⟨some (Payload.ptr addr), some (get_thunk (TyDesc.ptrTo c)),
    some (factory_call method heap (TyDesc.ptrTo c))⟩

/-- The private member `construct(i)` running on a freshly
default-initialised object: early return when the source is empty;
otherwise allocate a buffer of the recorded size, duplicate the source
payload into it through the descriptor's `copy`/`move` operation, adopt
the descriptor, and build the table from the source's own trampoline
(`get_m0(i)`). -/
def construct {κ V A R : Type} (i : Interface1 κ V A R) : Interface1 κ V A R :=
  match i._ptr with
  | none => {}
  | some p => ⟨some p, i._t, get_method0 i⟩

/-- The copy constructor: `interface(const interface& other)` calls
`construct(other)` on the default-initialised members. -/
def copy_ctor {κ V A R : Type} (other : Interface1 κ V A R) : Interface1 κ V A R :=
  construct other

/-- `swap(x, y)`: swaps `_ptr`, `_t` and `_vtable` memberwise; returns
the pair of resulting states. -/
def swap {κ V A R : Type} (x y : Interface1 κ V A R) :
    Interface1 κ V A R × Interface1 κ V A R :=
  (⟨y._ptr, y._t, y._vtable⟩, ⟨x._ptr, x._t, x._vtable⟩)

/-- The move constructor: `interface(interface&& other)` swaps the
default-initialised members with `other`.  Returns (new object,
moved-from source). -/
def move_ctor {κ V A R : Type} (other : Interface1 κ V A R) :
    Interface1 κ V A R × Interface1 κ V A R :=
  swap {} other

/-- The fallible part of `construct` used by copy-assignment: the
buffer allocation `new std::byte[t->size]` (and the payload copy into
it) may throw, but only runs when the source is non-empty; on success
the completed state is returned, on failure the exception propagates
before any member of the destination is written.  `allocOk` is the
oracle for whether that step succeeds. -/
def try_construct {κ V A R : Type} (i : Interface1 κ V A R) (allocOk : Bool) :
    Except Unit (Interface1 κ V A R) :=
  match i._ptr with
  | none => Except.ok {}
  | some p => if allocOk then Except.ok ⟨some p, i._t, get_method0 i⟩ else Except.error ()

/-- Copy-assignment by copy-and-swap: `auto tmp = other; swap(*this,
tmp);`.  Returns ((new left state, new right state), success flag); on
failure of the copy step the exception propagates before `swap` runs,
so both sides keep their prior states. -/
def copy_assign {κ V A R : Type} (lhs rhs : Interface1 κ V A R) (allocOk : Bool) :
    (Interface1 κ V A R × Interface1 κ V A R) × Bool :=
  match try_construct rhs allocOk with
  | Except.error _ => ((lhs, rhs), false)
  | Except.ok tmp => (((swap lhs tmp).1, rhs), true)

/-- Move-assignment: `auto tmp = std::move(other); swap(*this, tmp);`
(noexcept).  Returns (new left state, new right state). -/
def move_assign {κ V A R : Type} (lhs rhs : Interface1 κ V A R) :
    Interface1 κ V A R × Interface1 κ V A R :=
  ((swap lhs (move_ctor rhs).1).1, (move_ctor rhs).2)

/-- The contract method member `m0(args)`: dispatch through
`get_m0(*this)(_ptr, args...)`.  Calling through a null function
pointer or passing a null `_ptr` into the trampoline is undefined
behaviour in the source and yields `none` here. -/
def call {κ V A R : Type} (i : Interface1 κ V A R) (a : A) : Option R :=
  match get_method0 i, i._ptr with
  | some f, some p => some (f p a)
  | _, _ => none

/-- `target<T>(i)`: if `i._t` equals the address of `T`'s canonical
descriptor, reinterpret the opaque pointer as `T*` and return it
(borrowing the buffer contents), else return null. -/
def target {κ V A R : Type} [DecidableEq κ] (T : TyDesc κ) (i : Interface1 κ V A R) :
    Option (Payload V) :=
  if i._t = some (get_thunk T) then i._ptr else none

/-- `explicit operator bool()`: `return _ptr;`. -/
def toBool {κ V A R : Type} (i : Interface1 κ V A R) : Bool :=
  i._ptr.isSome

/-- The read `*reinterpret_cast<void**>(_ptr)` performed by
`operator==`: dereference the (non-null, under the guard that precedes
it) `_ptr` and reinterpret the buffer as a stored pointer.  The null
case is a null dereference, undefined behaviour in the source,
unreachable under the emptiness invariant; `0` stands in. -/
def deref_as_pointer {V : Type} : Option (Payload V) → Nat
  | some p => as_pointer p
  | none => 0

/-- `operator==`: true iff both sides are empty, or both descriptors
are the shared pointer descriptor and the stored pointer values are
equal. -/
def beq {κ V A R : Type} [DecidableEq κ] (lhs rhs : Interface1 κ V A R) : Bool :=
  match lhs._ptr with
  | none => rhs._ptr.isNone
  | some _ =>
    if is_pointer_thunk lhs._t && is_pointer_thunk rhs._t then
      deref_as_pointer lhs._ptr == deref_as_pointer rhs._ptr
    else false

/-- `operator!=`: `!(*this == rhs)`. -/
def bne {κ V A R : Type} [DecidableEq κ] (lhs rhs : Interface1 κ V A R) : Bool :=
  !(beq lhs rhs)

/-- The states an `INTERFACE_1` object can reach through its public
operations: default construction, wrapping a value of a
copy-constructible non-pointer type (the `static_assert` of the value
constructor), wrapping a pointer, copy construction, move construction
(both resulting states), both assignments (both resulting states), and
`swap` (both resulting states). -/
inductive Reach {κ V A R : Type} [Inhabited V] (method : κ → V → A → R) (heap : Nat → V)
    (copyCtorOf : κ → Bool) : Interface1 κ V A R → Prop where
  | dflt : Reach method heap copyCtorOf {}
  | ofValue (c : κ) (v : V) : copyCtorOf c = true →
      Reach method heap copyCtorOf (fromValue method heap c v)
  | ofPointer (c : κ) (addr : Nat) :
      Reach method heap copyCtorOf (fromPointer method heap c addr)
  | ofCopy {h} : Reach method heap copyCtorOf h →
      Reach method heap copyCtorOf (copy_ctor h)
  | ofMoveNew {h} : Reach method heap copyCtorOf h →
      Reach method heap copyCtorOf (move_ctor h).1
  | ofMoveSrc {h} : Reach method heap copyCtorOf h →
      Reach method heap copyCtorOf (move_ctor h).2
  | ofCopyAssignL {l r ok} : Reach method heap copyCtorOf l →
      Reach method heap copyCtorOf r →
      Reach method heap copyCtorOf ((copy_assign l r ok).1.1)
  | ofCopyAssignR {l r ok} : Reach method heap copyCtorOf l →
      Reach method heap copyCtorOf r →
      Reach method heap copyCtorOf ((copy_assign l r ok).1.2)
  | ofMoveAssignL {l r} : Reach method heap copyCtorOf l →
      Reach method heap copyCtorOf r →
      Reach method heap copyCtorOf ((move_assign l r).1)
  | ofMoveAssignR {l r} : Reach method heap copyCtorOf l →
      Reach method heap copyCtorOf r →
      Reach method heap copyCtorOf ((move_assign l r).2)
  | ofSwapL {x y} : Reach method heap copyCtorOf x →
      Reach method heap copyCtorOf y →
      Reach method heap copyCtorOf ((swap x y).1)
  | ofSwapR {x y} : Reach method heap copyCtorOf x →
      Reach method heap copyCtorOf y →
      Reach method heap copyCtorOf ((swap x y).2)

/-- The shapes a reachable state can take: empty with both pointers
null; value mode (value payload, concrete-type descriptor); or
reference mode (stored pointer, shared pointer descriptor). -/
def WF {κ V A R : Type} (h : Interface1 κ V A R) : Prop :=
  (h._ptr = none ∧ h._t = none) ∨
  (∃ v c, h._ptr = some (Payload.val v) ∧ h._t = some (Token.concrete c)) ∨
  (∃ addr, h._ptr = some (Payload.ptr addr) ∧ h._t = some Token.voidPtr)

end Interface1

/-- The class generated by `INTERFACE_2(SIG0, m0, SIG1, m1)`: as
`Interface1`, with a two-entry dispatch table. -/
structure Interface2 (κ V A R A2 R2 : Type) where
  _ptr : Option (Payload V) := none
  _t : Option (Token κ) := none
  _vt0 : Option (Payload V → A → R) := none
  _vt1 : Option (Payload V → A2 → R2) := none

namespace Interface2

/-- The friend `get_m0(i, interface_tag)` of the arity-2 class. -/
def get_method0 {κ V A R A2 R2 : Type} (i : Interface2 κ V A R A2 R2) :
    Option (Payload V → A → R) :=
  i._vt0

/-- The friend `get_m1(i, interface_tag)` of the arity-2 class. -/
def get_method1 {κ V A R A2 R2 : Type} (i : Interface2 κ V A R A2 R2) :
    Option (Payload V → A2 → R2) :=
  i._vt1

/-- The arity-2 value-wrapping constructor at a non-pointer concrete
type `c`: both table entries are trampolines bound to `c`, one per
contract method. -/
def fromValue {κ V A R A2 R2 : Type} [Inhabited V] (m0 : κ → V → A → R)
    (m1 : κ → V → A2 → R2) (heap : Nat → V) (c : κ) (v : V) :
    Interface2 κ V A R A2 R2 :=
  ⟨some (Payload.val v), some (get_thunk (TyDesc.base c)),
    some (factory_call m0 heap (TyDesc.base c)),
    some (factory_call m1 heap (TyDesc.base c))⟩

/-- The member `m0(args)` of the arity-2 class. -/
def call0 {κ V A R A2 R2 : Type} (i : Interface2 κ V A R A2 R2) (a : A) : Option R :=
  match get_method0 i, i._ptr with
  | some f, some p => some (f p a)
  | _, _ => none

/-- The member `m1(args)` of the arity-2 class. -/
def call1 {κ V A R A2 R2 : Type} (i : Interface2 κ V A R A2 R2) (a : A2) : Option R2 :=
  match get_method1 i, i._ptr with
  | some f, some p => some (f p a)
  | _, _ => none

end Interface2

/-- The converting constructor of an `INTERFACE_1(SIG0, m0)` class from
an arity-2 source whose *first* method is named `m0`: `construct(i)`
duplicates the payload, adopts the descriptor, and builds the one-entry
table from the source's trampoline found by name, `get_m0(i)`. -/
def convert21_fst {κ V A R A2 R2 : Type} (i : Interface2 κ V A R A2 R2) :
    Interface1 κ V A R :=
  match i._ptr with
  | none => {}
  | some p => ⟨some p, i._t, Interface2.get_method0 i⟩

/-- The converting constructor of an `INTERFACE_1(SIG1, m1)` class from
an arity-2 source whose *second* method is named `m1`: name lookup
resolves `get_m1(i)`, extracting the second trampoline of the source
(selection is by method name, not by table position). -/
def convert21_snd {κ V A R A2 R2 : Type} (i : Interface2 κ V A R A2 R2) :
    Interface1 κ V A2 R2 :=
  match i._ptr with
  | none => {}
  | some p => ⟨some p, i._t, Interface2.get_method1 i⟩

/-- Concrete class types used to instantiate the model for witnesses:
two ordinary copyable types and a move-only type (a type such as
`std::unique_ptr` member-holding classes: move constructor present,
copy constructor deleted). -/
inductive CTy : Type where
  | square
  | circle
  | moveOnly
deriving DecidableEq

/-- The contract method implementations of the concrete types. -/
def cMethod : CTy → Nat → Nat → Nat
  | CTy.square, v, a => v * v + a
  | CTy.circle, v, a => 3 * v * v + a
  | CTy.moveOnly, v, a => v + a

/-- A second contract method, for the arity-2 instantiation. -/
def cMethod2 : CTy → Nat → Nat → Nat
  | _, v, a => v + 2 * a

/-- A concrete heap of external objects, for reference-mode handles. -/
def cHeap : Nat → Nat :=
  fun addr => addr + 7

/-- `std::is_constructible_v<T, const T&>` of each concrete type. -/
def cCopyCtor : CTy → Bool
  | CTy.moveOnly => false
  | _ => true

/-- `std::is_constructible_v<T, T&&>` of each concrete type: every one
of them, the move-only type included, is move-constructible. -/
def cMoveCtor : CTy → Bool
  | _ => true

/-- The concrete arity-1 instantiation used by the witnesses. -/
abbrev CH1 := Interface1 CTy Nat Nat Nat

/-- The concrete arity-2 instantiation used by the witnesses. -/
abbrev CH2 := Interface2 CTy Nat Nat Nat Nat Nat

/-- Copy construction preserves the shape classification of states. -/
theorem wf_construct {κ V A R : Type} {h : Interface1 κ V A R} (hw : Interface1.WF h) :
    Interface1.WF (Interface1.construct h) := by
  rcases hw with ⟨h1, _⟩ | ⟨v, c, h1, h2⟩ | ⟨addr, h1, h2⟩
  · left
    simp [Interface1.construct, h1]
  · right; left
    exact ⟨v, c, by simp [Interface1.construct, h1], by simp [Interface1.construct, h1, h2]⟩
  · right; right
    exact ⟨addr, by simp [Interface1.construct, h1], by simp [Interface1.construct, h1, h2]⟩

/-- The left result of copy-assignment preserves the shape
classification of states. -/
theorem wf_copy_assign_fst {κ V A R : Type} {l r : Interface1 κ V A R}
    (hwl : Interface1.WF l) (hwr : Interface1.WF r) (ok : Bool) :
    Interface1.WF ((Interface1.copy_assign l r ok).1.1) := by
  rcases hwr with ⟨h1, _⟩ | ⟨v, c, h1, h2⟩ | ⟨addr, h1, h2⟩
  · left
    simp [Interface1.copy_assign, Interface1.try_construct, Interface1.swap, h1]
  · cases ok
    · simpa [Interface1.copy_assign, Interface1.try_construct, h1] using hwl
    · right; left
      refine ⟨v, c, ?_, ?_⟩ <;>
        simp [Interface1.copy_assign, Interface1.try_construct, Interface1.swap,
          Interface1.get_method0, h1, h2]
  · cases ok
    · simpa [Interface1.copy_assign, Interface1.try_construct, h1] using hwl
    · right; right
      refine ⟨addr, ?_, ?_⟩ <;>
        simp [Interface1.copy_assign, Interface1.try_construct, Interface1.swap,
          Interface1.get_method0, h1, h2]

/-- The right result of copy-assignment is the untouched right-hand
side. -/
theorem copy_assign_snd {κ V A R : Type} (l r : Interface1 κ V A R) (ok : Bool) :
    (Interface1.copy_assign l r ok).1.2 = r := by
  cases h1 : r._ptr <;> cases ok <;>
    simp [Interface1.copy_assign, Interface1.try_construct, h1]

/-- Every reachable state has one of the three well-formed shapes. -/
theorem reach_wf {κ V A R : Type} [Inhabited V] {method : κ → V → A → R} {heap : Nat → V}
    {copyCtorOf : κ → Bool} {h : Interface1 κ V A R}
    (hr : Interface1.Reach method heap copyCtorOf h) : Interface1.WF h := by
  induction hr with
  | dflt => exact Or.inl ⟨rfl, rfl⟩
  | ofValue c v _ => exact Or.inr (Or.inl ⟨v, c, rfl, rfl⟩)
  | ofPointer c addr => exact Or.inr (Or.inr ⟨addr, rfl, rfl⟩)
  | ofCopy _ ih => exact wf_construct ih
  | ofMoveNew _ ih => exact ih
  | ofMoveSrc _ _ => exact Or.inl ⟨rfl, rfl⟩
  | ofCopyAssignL _ _ ihl ihr => exact wf_copy_assign_fst ihl ihr _
  | ofCopyAssignR _ _ _ ihr => exact (copy_assign_snd _ _ _) ▸ ihr
  | ofMoveAssignL _ _ _ ihr => exact ihr
  | ofMoveAssignR _ _ _ _ => exact Or.inl ⟨rfl, rfl⟩
  | ofSwapL _ _ _ ihy => exact ihy
  | ofSwapR _ _ ihx _ => exact ihx

/-- C1: calling the contract method on a handle constructed from a
concrete value invokes that value's own method with the forwarded
argument and returns its result (the trampoline is the statically
selected table entry bound to the concrete type); on a handle in
reference mode the method is invoked on the pointee, through one extra
dereference. -/
theorem c1_dispatch_invokes_wrapped_method {κ V A R : Type} [Inhabited V]
    (method : κ → V → A → R) (heap : Nat → V) :
    (∀ (c : κ) (v : V) (a : A),
      Interface1.call (Interface1.fromValue method heap c v) a = some (method c v a))
    ∧ (∀ (c : κ) (addr : Nat) (a : A),
      Interface1.call (Interface1.fromPointer method heap c addr) a
        = some (method c (heap addr) a)) :=
  ⟨fun _ _ _ => rfl, fun _ _ _ => rfl⟩

/-- C2: wrapping a value `v` of a copy-constructible non-pointer
concrete type and downcasting with `target` at that same type yields
the stored copy of `v` (non-null); `target` at any type whose canonical
lifecycle descriptor is distinct yields null. -/
theorem c2_target_round_trip {κ V A R : Type} [DecidableEq κ] [Inhabited V]
    (method : κ → V → A → R) (heap : Nat → V) (copyCtorOf : κ → Bool)
    (c : κ) (v : V) (_hcc : copyCtorOf c = true) :
    Interface1.target (TyDesc.base c)
      (Interface1.fromValue method heap c v : Interface1 κ V A R)
      = some (Payload.val v)
    ∧ ∀ T : TyDesc κ, get_thunk T ≠ get_thunk (TyDesc.base c) →
        Interface1.target T (Interface1.fromValue method heap c v : Interface1 κ V A R)
          = none := by
  constructor
  · simp [Interface1.target, Interface1.fromValue]
  · intro T hT
    have hne : ¬ ((Interface1.fromValue method heap c v : Interface1 κ V A R)._t
        = some (get_thunk T)) := by
      simp only [Interface1.fromValue, Option.some.injEq]
      exact fun h => hT h.symm
    simp [Interface1.target, hne]

/-- Witness for C2 at the concrete type square, value 4: the round trip
succeeds and the downcast at the distinct concrete type circle is
absent. -/
theorem c2_target_round_trip_witness :
    Interface1.target (TyDesc.base CTy.square)
        (Interface1.fromValue cMethod cHeap CTy.square 4 : CH1) = some (Payload.val 4)
    ∧ Interface1.target (TyDesc.base CTy.circle)
        (Interface1.fromValue cMethod cHeap CTy.square 4 : CH1) = none :=
  ⟨(c2_target_round_trip cMethod cHeap cCopyCtor CTy.square 4 rfl).1,
    (c2_target_round_trip cMethod cHeap cCopyCtor CTy.square 4 rfl).2
      (TyDesc.base CTy.circle) (by decide)⟩

/-- C3: for every pair of reachable handles of the same interface type,
`operator==` returns true iff both are empty, or both are in reference
mode and their stored pointer values are equal; in every other
combination, including two value-mode handles whose payloads are equal,
it returns false; and `operator!=` is its negation. -/
theorem c3_equality_semantics {κ V A R : Type} [DecidableEq κ] [Inhabited V]
    (method : κ → V → A → R) (heap : Nat → V) (copyCtorOf : κ → Bool)
    (x y : Interface1 κ V A R)
    (hx : Interface1.Reach method heap copyCtorOf x)
    (hy : Interface1.Reach method heap copyCtorOf y) :
    (Interface1.beq x y = true ↔
      ((x._ptr = none ∧ y._ptr = none) ∨
        (∃ addr, x._t = some Token.voidPtr ∧ x._ptr = some (Payload.ptr addr) ∧
          y._t = some Token.voidPtr ∧ y._ptr = some (Payload.ptr addr))))
    ∧ (∀ v w, x._ptr = some (Payload.val v) → y._ptr = some (Payload.val w) → v = w →
        Interface1.beq x y = false)
    ∧ (∀ z : Interface1 κ V A R, Interface1.bne x z = !(Interface1.beq x z)) := by
  have wx := reach_wf hx
  have wy := reach_wf hy
  refine ⟨?_, ?_, fun _ => rfl⟩
  · rcases wx with ⟨x1, x2⟩ | ⟨v, c, x1, x2⟩ | ⟨a, x1, x2⟩ <;>
      rcases wy with ⟨y1, y2⟩ | ⟨w, d, y1, y2⟩ | ⟨b, y1, y2⟩ <;>
      simp [Interface1.beq, is_pointer_thunk, Interface1.deref_as_pointer,
        as_pointer, x1, x2, y1, y2]
    exact eq_comm
  · intro v w h1 h2 _
    rcases wx with ⟨x1, _⟩ | ⟨v', c, x1, x2⟩ | ⟨a, x1, _⟩
    · rw [x1] at h1
      exact absurd h1 (by simp)
    · simp [Interface1.beq, is_pointer_thunk, h1, x2]
    · rw [x1] at h1
      simp at h1

/-- Witness for C3: two reference-mode handles wrapping the same
address compare equal. -/
theorem c3_equality_semantics_witness :
    Interface1.beq (Interface1.fromPointer cMethod cHeap CTy.square 5 : CH1)
      (Interface1.fromPointer cMethod cHeap CTy.circle 5) = true :=
  ((c3_equality_semantics cMethod cHeap cCopyCtor _ _
      (Interface1.Reach.ofPointer CTy.square 5)
      (Interface1.Reach.ofPointer CTy.circle 5)).1).mpr
    (Or.inr ⟨5, rfl, rfl, rfl, rfl⟩)

/-- C4: for every handle in reference mode (constructed from a pointer,
whatever its pointee type) and every pointer type, the downcast at that
pointer type succeeds and returns the stored pointer, because all
pointer types share the single canonical reference-mode descriptor: the
check cannot distinguish the real pointee type. -/
theorem c4_target_any_pointer_type {κ V A R : Type} [DecidableEq κ] [Inhabited V]
    (method : κ → V → A → R) (heap : Nat → V) :
    ∀ (c d : κ) (addr : Nat),
      Interface1.target (TyDesc.ptrTo d)
        (Interface1.fromPointer method heap c addr : Interface1 κ V A R)
        = some (Payload.ptr addr) := by
  intro c d addr
  simp [Interface1.target, Interface1.fromPointer, get_thunk]

/-- C5: move construction leaves the new handle with exactly the data
pointer, lifecycle descriptor and dispatch table the source held before
the move (so it behaves as the source did), and leaves the source empty
(null data and lifecycle pointers, false in boolean context). -/
theorem c5_move_empties_source {κ V A R : Type} (h : Interface1 κ V A R) :
    (Interface1.move_ctor h).1._ptr = h._ptr
    ∧ (Interface1.move_ctor h).1._t = h._t
    ∧ (Interface1.move_ctor h).1._vtable = h._vtable
    ∧ (Interface1.move_ctor h).2._ptr = none
    ∧ (Interface1.move_ctor h).2._t = none
    ∧ Interface1.toBool (Interface1.move_ctor h).2 = false
    ∧ ∀ a, Interface1.call (Interface1.move_ctor h).1 a = Interface1.call h a :=
  ⟨rfl, rfl, rfl, rfl, rfl, rfl, fun _ => rfl⟩

/-- C6: converting a non-empty arity-2 handle to an arity-1 handle of a
compatible narrower contract copies the payload, adopts the
descriptor, and fills the one-entry table with the source's existing
trampoline selected by method name (whichever of the two source
methods the name resolves to), so calling the shared method on the
converted handle produces the same observable result as calling it on
the original. -/
theorem c6_narrowing_preserves_behavior {κ V A R A2 R2 : Type}
    (h2 : Interface2 κ V A R A2 R2) (p : Payload V) (hp : h2._ptr = some p) :
    (convert21_fst h2)._ptr = some p
    ∧ (convert21_fst h2)._t = h2._t
    ∧ (convert21_fst h2)._vtable = Interface2.get_method0 h2
    ∧ (∀ a, Interface1.call (convert21_fst h2) a = Interface2.call0 h2 a)
    ∧ (convert21_snd h2)._ptr = some p
    ∧ (convert21_snd h2)._vtable = Interface2.get_method1 h2
    ∧ (∀ a, Interface1.call (convert21_snd h2) a = Interface2.call1 h2 a) := by
  refine ⟨?_, ?_, ?_, fun a => ?_, ?_, ?_, fun a => ?_⟩
  all_goals
    cases hv0 : h2._vt0 <;> cases hv1 : h2._vt1 <;>
      simp [convert21_fst, convert21_snd, Interface1.call, Interface2.call0,
        Interface2.call1, Interface1.get_method0, Interface2.get_method0,
        Interface2.get_method1, hp, hv0, hv1]

/-- Witness for C6: converting a concrete arity-2 handle and calling
the shared (first) method yields the same result as on the original. -/
theorem c6_narrowing_preserves_behavior_witness :
    Interface1.call
        (convert21_fst (Interface2.fromValue cMethod cMethod2 cHeap CTy.square 4 : CH2)) 5
      = Interface2.call0 (Interface2.fromValue cMethod cMethod2 cHeap CTy.square 4 : CH2) 5 :=
  (c6_narrowing_preserves_behavior
    (Interface2.fromValue cMethod cMethod2 cHeap CTy.square 4 : CH2)
    (Payload.val 4) rfl).2.2.2.1 5

/-- C7: every reachable handle state has its data pointer null exactly
when its lifecycle descriptor pointer is null (the joint-null state
being the empty state); a default-constructed handle is empty and tests
false; copying or moving an empty handle yields an empty handle. -/
theorem c7_emptiness_invariant {κ V A R : Type} [Inhabited V]
    (method : κ → V → A → R) (heap : Nat → V) (copyCtorOf : κ → Bool) :
    (∀ h : Interface1 κ V A R, Interface1.Reach method heap copyCtorOf h →
        (h._ptr = none ↔ h._t = none))
    ∧ ({} : Interface1 κ V A R)._ptr = none
    ∧ ({} : Interface1 κ V A R)._t = none
    ∧ Interface1.toBool ({} : Interface1 κ V A R) = false
    ∧ Interface1.copy_ctor ({} : Interface1 κ V A R) = {}
    ∧ Interface1.move_ctor ({} : Interface1 κ V A R) = ({}, {}) := by
  refine ⟨?_, rfl, rfl, rfl, rfl, rfl⟩
  intro h hr
  rcases reach_wf hr with ⟨h1, h2⟩ | ⟨v, c, h1, h2⟩ | ⟨addr, h1, h2⟩ <;>
    simp [h1, h2]

/-- Witness for C7: the invariant instantiated at a concretely
constructed reference-mode handle. -/
theorem c7_emptiness_invariant_witness :
    ((Interface1.fromPointer cMethod cHeap CTy.square 3 : CH1)._ptr = none ↔
      (Interface1.fromPointer cMethod cHeap CTy.square 3 : CH1)._t = none) :=
  (c7_emptiness_invariant cMethod cHeap cCopyCtor).1 _
    (Interface1.Reach.ofPointer CTy.square 3)

/-- C8: assignment uses copy-and-swap.  When the copy step succeeds,
copy-assignment leaves the left side holding a copy of the right side's
prior value and the right side unchanged; when the copy step fails (the
buffer allocation or payload copy throws, possible only for a non-empty
right side), both sides keep their prior states; move-assignment always
succeeds, moving the right side's prior state into the left side. -/
theorem c8_copy_and_swap_assignment {κ V A R : Type} (l r : Interface1 κ V A R) :
    Interface1.copy_assign l r true = ((Interface1.construct r, r), true)
    ∧ (r._ptr ≠ none → Interface1.copy_assign l r false = ((l, r), false))
    ∧ (r._ptr = none → Interface1.copy_assign l r false = ((Interface1.construct r, r), true))
    ∧ Interface1.move_assign l r = (r, ({} : Interface1 κ V A R)) := by
  refine ⟨?_, ?_, ?_, rfl⟩
  · cases hp : r._ptr <;>
      simp [Interface1.copy_assign, Interface1.try_construct, Interface1.construct,
        Interface1.swap, Interface1.get_method0, hp]
  · intro hne
    rcases Option.ne_none_iff_exists.mp hne with ⟨p, hp⟩
    simp [Interface1.copy_assign, Interface1.try_construct, hp.symm]
  · intro hp
    simp [Interface1.copy_assign, Interface1.try_construct, Interface1.construct,
      Interface1.swap, hp]

/-- Witness for C8: a failing copy step on concrete non-empty handles
leaves both sides unchanged. -/
theorem c8_copy_and_swap_assignment_witness :
    Interface1.copy_assign (Interface1.fromValue cMethod cHeap CTy.square 1 : CH1)
        (Interface1.fromValue cMethod cHeap CTy.circle 2) false
      = (((Interface1.fromValue cMethod cHeap CTy.square 1 : CH1),
          (Interface1.fromValue cMethod cHeap CTy.circle 2 : CH1)), false) :=
  (c8_copy_and_swap_assignment _ _).2.1 (by simp [Interface1.fromValue])

/-- C9 counterexample: for a move-only concrete type (move constructor
present, copy constructor deleted, as with a type holding a
`std::unique_ptr` member) the generated lifecycle descriptor has a null
`move` operation even though the type supports move construction, so
the claim that `move` is absent exactly when the type lacks move
construction is false. -/
theorem c9_counterexample_move_only :
    ¬ ((((thunk_storage (cCopyCtor CTy.moveOnly) 8).hasCopy = false) ↔
          cCopyCtor CTy.moveOnly = false)
       ∧ (((thunk_storage (cCopyCtor CTy.moveOnly) 8).hasMove = false) ↔
          cMoveCtor CTy.moveOnly = false)) := by
  decide

/-- C9 (amended): in a concrete type's lifecycle descriptor, the copy
operation and the move operation are each absent exactly when the type
is not copy-constructible — the source selects the all-null
specialisation on `std::is_constructible_v<T, const T&>` alone, so the
presence of `move` does not track move-constructibility. -/
theorem c9_absence_tracks_copy_constructibility (copyConstructible : Bool) (size : Nat) :
    (((thunk_storage copyConstructible size).hasCopy = false) ↔ copyConstructible = false)
    ∧ (((thunk_storage copyConstructible size).hasMove = false) ↔ copyConstructible = false) := by
  cases copyConstructible <;> simp [thunk_storage]

/-- C10: handle equality is not reflexive: a reachable non-empty
value-mode handle compares unequal to itself (`==` false, `!=` true),
while an empty handle and a reference-mode handle each compare equal to
themselves. -/
theorem c10_self_equality {κ V A R : Type} [DecidableEq κ] [Inhabited V]
    (method : κ → V → A → R) (heap : Nat → V) (copyCtorOf : κ → Bool)
    (h : Interface1 κ V A R) (hr : Interface1.Reach method heap copyCtorOf h) :
    ((∃ v, h._ptr = some (Payload.val v)) →
        Interface1.beq h h = false ∧ Interface1.bne h h = true)
    ∧ (h._ptr = none → Interface1.beq h h = true)
    ∧ ((∃ addr, h._ptr = some (Payload.ptr addr)) → Interface1.beq h h = true) := by
  rcases reach_wf hr with ⟨h1, h2⟩ | ⟨v, c, h1, h2⟩ | ⟨addr, h1, h2⟩
  · refine ⟨?_, ?_, ?_⟩ <;>
      simp [Interface1.beq, Interface1.bne, h1, h2]
  · refine ⟨?_, ?_, ?_⟩ <;>
      simp [Interface1.beq, Interface1.bne, is_pointer_thunk, h1, h2]
  · refine ⟨?_, ?_, ?_⟩ <;>
      simp [Interface1.beq, Interface1.bne, is_pointer_thunk,
        Interface1.deref_as_pointer, h1, h2]

/-- Witness for C10: a concrete value-mode handle is unequal to itself. -/
theorem c10_self_equality_witness :
    Interface1.beq (Interface1.fromValue cMethod cHeap CTy.square 4 : CH1)
      (Interface1.fromValue cMethod cHeap CTy.square 4) = false
    ∧ Interface1.bne (Interface1.fromValue cMethod cHeap CTy.square 4 : CH1)
      (Interface1.fromValue cMethod cHeap CTy.square 4) = true :=
  (c10_self_equality cMethod cHeap cCopyCtor _
      (Interface1.Reach.ofValue CTy.square 4 rfl)).1 ⟨4, rfl⟩

end InterfaceSpec
